import Mathlib

/-!
Verification of the job-scheduling core of bids-core (src/jobs.py) against its
natural-language specification.

The module is embedded shallowly: MongoDB documents are association lists of
string keys and values, the job collection is a list of documents, and every
handler returns `Except PyError`, where `PyError` covers the Python runtime
errors the module can raise (NameError for unbound names, TypeError for
ill-typed operations, KeyError for missing dictionary keys) together with the
explicit `abort(status, message)` rejections of the request-handler base class
and the client-side ValueError raised by the pymongo driver.

Python evaluation order is preserved: arguments of a call are evaluated before
the call, `and` short-circuits, and a raised error aborts the rest of the
handler body.

One syntactic note: line 92 of src/jobs.py reads
`'Cannot mutate a job that is ' + job['state'] '.'`, a string literal adjacent
to a subscript expression, which is a slip for `+ '.'`; the embedding renders
it as the evidently intended concatenation, since the abort outcome does not
depend on the message text.
-/

namespace BidsJobs

/-- Python runtime errors and handler rejections observable from jobs.py. -/
inductive PyError where
  | nameError (n : String)
  | typeError (msg : String)
  | keyError (k : String)
  | valueError (msg : String)
  | operationFailure (msg : String)
  | abort (status : Nat) (msg : String)
  deriving Repr, DecidableEq, BEq

/-- Field values stored in a job document: strings (states) and naturals
(ids and timestamps; time is modelled as a natural-number clock). -/
inductive Value where
  | str (s : String)
  | num (n : Nat)
  deriving Repr, DecidableEq, BEq

/-- A MongoDB document: an association list from field names to values. -/
abbrev Doc := List (String × Value)

/-- The jobs collection. -/
abbrev JobStore := List Doc

/-- Python `k in d` on a dictionary. -/
def Doc.hasKey (d : Doc) (k : String) : Bool :=
  (d.lookup k).isSome

/-- Python `d[k] = v`: replace the binding in place, or append a new one. -/
def Doc.setField (d : Doc) (k : String) (v : Value) : Doc :=
  if d.hasKey k then
    d.map (fun kv => if kv.1 == k then (k, v) else kv)
  else
    d ++ [(k, v)]

/-- Names bound at module level in src/jobs.py: its imports and its top-level
definitions. Neither `ReturnDocument` (the pymongo constant used by
`Jobs.next`) nor `tosState` (the misspelling inside `validTransition`) is
among them. -/
def moduleGlobals : List String :=
  ["logging", "datetime", "log", "base",
   "JOB_STATES", "JOB_STATES_ALLOWED_MUTATE", "JOB_TRANSITIONS",
   "validTransition", "Jobs", "Job"]

/-- src/jobs.py JOB_STATES. -/
def JOB_STATES : List String :=
  ["pending", "running", "failed", "complete"]

/-- src/jobs.py JOB_STATES_ALLOWED_MUTATE. -/
def JOB_STATES_ALLOWED_MUTATE : List String :=
  ["pending", "running"]

/-- src/jobs.py JOB_TRANSITIONS: the transition table as concatenated keys. -/
def JOB_TRANSITIONS : List String :=
  ["pending --> running", "running --> failed", "running --> complete"]

/-- The local namespace of `validTransition` as the source binds it: exactly
its two parameters `fromState` and `toState`. -/
def validTransitionLocals (fromState toState : String) : List (String × String) :=
  [("fromState", fromState), ("toState", toState)]

/-- src/jobs.py validTransition (lines 35-36). The body builds the key
`fromState + " --> " + tosState` and tests membership in JOB_TRANSITIONS; the
name `tosState` is resolved against the local namespace (and is also absent
from `moduleGlobals`), so evaluation raises NameError before the membership
test can run. -/
def validTransition (fromState toState : String) : Except PyError Bool :=
  match (validTransitionLocals fromState toState).lookup "tosState" with
  | some v =>
      Except.ok (decide ((fromState ++ " --> " ++ v) ∈ JOB_TRANSITIONS))
  | none => Except.error (PyError.nameError "tosState")

/-- Timestamp read from a document for pymongo sorting on `modified`
(a document without the field sorts as 0). -/
def Doc.modifiedNum (d : Doc) : Nat :=
  match d.lookup "modified" with
  | some (Value.num n) => n
  | _ => 0

/-- The document an index-free descending sort on `modified` yields first:
the first listed document with the maximal `modified` value. -/
def pickMostRecent (ms : List Doc) : Option Doc :=
  ms.foldl
    (fun best d =>
      match best with
      | none => some d
      | some b => if d.modifiedNum > b.modifiedNum then some d else best)
    none

/-- Apply a `$set` payload to a document: each listed field is written. -/
def Doc.setAll (d : Doc) (s : Doc) : Doc :=
  s.foldl (fun acc kv => acc.setField kv.1 kv.2) d

/-- MongoDB find_one_and_update with a single equality filter, a `$set`
update, a descending sort on `modified`, and return_document AFTER: the
updated document (or none when nothing matches) together with the new
collection. -/
def findOneAndUpdateAfter (db : JobStore) (fKey : String) (fVal : Value)
    (setDoc : Doc) : Option Doc × JobStore :=
  match pickMostRecent (db.filter (fun d => d.lookup fKey == some fVal)) with
  | none => (none, db)
  | some target =>
      let updated := target.setAll setDoc
      (some updated, db.map (fun d => if d == target then updated else d))

/-- src/jobs.py Jobs.next (lines 52-71). Python evaluates every argument of
the find_one_and_update call before the call itself; the keyword argument
`return_document=ReturnDocument.AFTER` reads the name `ReturnDocument`, which
is neither local nor in `moduleGlobals` (pymongo is never imported), so the
handler raises NameError. The query it would issue — filter
`{status: pending}`, update `{$set: {status: running, modified: now}}`, sort
`modified` descending, return AFTER — is embedded in the guarded branch. -/
def Jobs.next (db : JobStore) (now : Nat) : Except PyError (Option Doc × JobStore) :=
  if "ReturnDocument" ∈ moduleGlobals then
    Except.ok (findOneAndUpdateAfter db "status" (Value.str "pending")
      [("status", Value.str "running"), ("modified", Value.num now)])
  else
    Except.error (PyError.nameError "ReturnDocument")

/-- src/jobs.py Jobs.get: list all jobs. -/
def Jobs.get (db : JobStore) : List Doc := db

/-- src/jobs.py Jobs.count. -/
def Jobs.count (db : JobStore) : Nat := db.length

/-- pymongo find_one with an `_id` equality filter: the first matching
document, if any. -/
def findOne (db : JobStore) (id : Nat) : Option Doc :=
  db.find? (fun d => d.lookup "_id" == some (Value.num id))

/-- Python 2 `str + int` (line 89: `'MUTATION HAS ' + len(mutation)`):
`str.__add__` rejects a non-string right operand and `int` defines no
`__radd__` for strings, so the expression raises TypeError whatever the
operand values are. -/
def strPlusInt (_s : String) (_n : Nat) : Except PyError String :=
  Except.error (PyError.typeError "cannot concatenate str and int objects")

/-- Python subscript `job[k]` where `job` is the result of find_one: `None`
(a find_one miss) is not subscriptable, and a present document raises
KeyError on a missing key. -/
def getItem (job : Option Doc) (k : String) : Except PyError Value :=
  match job with
  | none => Except.error (PyError.typeError "NoneType object is not subscriptable")
  | some d =>
      match d.lookup k with
      | some v => Except.ok v
      | none => Except.error (PyError.keyError k)

/-- A value rendered for string concatenation in abort messages. -/
def Value.asString : Value → String
  | Value.str s => s
  | Value.num n => toString n

/-- pymongo client-side validation for update_one: the update document must
be nonempty and its first key must begin with a dollar sign, else ValueError
is raised before the store is contacted. -/
def validateOkForUpdate (upd : Doc) : Except PyError Unit :=
  match upd with
  | [] => Except.error (PyError.valueError "update cannot be empty")
  | (k, _) :: _ =>
      if k.startsWith "$" then Except.ok ()
      else Except.error (PyError.valueError "update only works with the dollar operators")

/-- pymongo update_one as src/jobs.py line 102 calls it, with the full
pre-read document as filter and the mutation as update. Client-side
validation rejects a first key without a dollar sign; a document that passes
but mixes in a plain field key (as put always produces, having just set the
plain key `timestamp`) is rejected by the server as an unknown modifier. The
remaining case, an update of only dollar operators, is unreachable from put
and is embedded as matching the whole filter document and applying nothing
representable (flat values under an operator key carry no field payload). -/
def update_one (db : JobStore) (filt : Doc) (upd : Doc) : Except PyError JobStore := do
  let _ ← validateOkForUpdate upd
  if upd.all (fun kv => kv.1.startsWith "$") then
    Except.ok (db.map (fun d =>
      if filt.all (fun kv => d.lookup kv.1 == some kv.2) then d else d))
  else
    Except.error (PyError.operationFailure "unknown modifier: plain field key in update document")

/-- src/jobs.py Job.put (lines 80-102), in source order: read the mutation,
find_one the job by id, run the debug print (whose `str + int` concatenation
raises TypeError on every call), gate on JOB_STATES_ALLOWED_MUTATE, validate
a requested state change with validTransition, stamp `timestamp`, and issue
update_one with the pre-read document as filter. -/
def Job.put (db : JobStore) (id : Nat) (mutation : Doc) (now : Nat) :
    Except PyError JobStore := do
  let job := findOne db id
  let _ ← strPlusInt "MUTATION HAS " mutation.length
  let jobState ← getItem job "state"
  if Value.asString jobState ∉ JOB_STATES_ALLOWED_MUTATE then
    Except.error (PyError.abort 404
      ("Cannot mutate a job that is " ++ Value.asString jobState ++ "."))
  else do
    if mutation.hasKey "state" then
      let toV ← getItem (some mutation) "state"
      let ok ← validTransition (Value.asString jobState) (Value.asString toV)
      if !ok then
        Except.error (PyError.abort 404
          ("Mutating job from " ++ Value.asString jobState ++ " to "
            ++ Value.asString toV ++ " not allowed."))
      else pure ()
    else pure ()
    let stamped := mutation.setField "timestamp" (Value.num now)
    update_one db (job.getD []) stamped

/-- src/jobs.py Job.get: fetch one job by id. -/
def Job.get (db : JobStore) (id : Nat) : Option Doc := findOne db id

/-- A store containing exactly one job, in state pending, last modified at 10. -/
def onePendingStore : JobStore :=
  [[("_id", Value.num 1), ("state", Value.str "pending"), ("modified", Value.num 10)]]

/-- A store containing exactly one job, in state running: no job is pending. -/
def oneRunningStore : JobStore :=
  [[("_id", Value.num 2), ("state", Value.str "running"), ("modified", Value.num 3)]]

/-- A store containing exactly one job, in the terminal state complete. -/
def oneCompleteStore : JobStore :=
  [[("_id", Value.num 1), ("state", Value.str "complete"), ("modified", Value.num 10)]]

/-- Claim C10: every call to next() evaluates the name ReturnDocument, which
jobs.py neither imports nor defines, so for every store and every clock value
the handler raises a name-resolution error instead of returning a job record
or a no-work result. -/
theorem next_always_raises_nameError (db : JobStore) (now : Nat) :
    Jobs.next db now = Except.error (PyError.nameError "ReturnDocument") := rfl

/-- Claim C1 fails on the code: against a store holding exactly one pending
job, a first and a second claim attempt both raise NameError, so no engine
ever receives the job — not one success and one no-work result as claimed. -/
theorem next_two_engines_both_error :
    Jobs.next onePendingStore 11 = Except.error (PyError.nameError "ReturnDocument") ∧
    Jobs.next onePendingStore 12 = Except.error (PyError.nameError "ReturnDocument") :=
  ⟨rfl, rfl⟩

/-- Claim C3 fails on the code: with a pending job (modified 10) in the
store, next() at clock 42 does not return a running record with a larger
modified value; it raises NameError. -/
theorem next_claim_returns_no_running_record :
    Jobs.next onePendingStore 42 = Except.error (PyError.nameError "ReturnDocument") := rfl

/-- Claim C9 fails on the code: with no pending job in the store, next()
does not return the explicit no-work success; it raises NameError. -/
theorem next_without_pending_is_not_a_success :
    Jobs.next oneRunningStore 4 = Except.error (PyError.nameError "ReturnDocument") := rfl

/-- Claim C2 fails on the code: validTransition raises NameError on every
input — the misspelled name tosState is unbound — so it is true on no listed
pair and false on no unlisted pair. -/
theorem validTransition_always_raises (fromState toState : String) :
    validTransition fromState toState = Except.error (PyError.nameError "tosState") := rfl

/-- Evaluation of validTransition_always_raises at the listed pair
(pending, running), where the claim promises the value true. -/
theorem validTransition_always_raises_witness :
    validTransition "pending" "running" = Except.error (PyError.nameError "tosState") :=
  validTransition_always_raises "pending" "running"

/-- Claim C4 fails on the code: every call to put raises TypeError at the
debug print (str + int) before reaching the write, for every store, id,
mutation and clock; no field is merged and modified is never stamped. -/
theorem put_always_raises_typeError (db : JobStore) (id : Nat)
    (mutation : Doc) (now : Nat) :
    Job.put db id mutation now
      = Except.error (PyError.typeError "cannot concatenate str and int objects") := rfl

/-- Claim C5 fails on the code: updating a complete job raises TypeError at
the debug print, not the NotMutable rejection. -/
theorem put_on_terminal_job_not_notMutable :
    Job.put oneCompleteStore 1 [("state", Value.str "failed")] 11
      = Except.error (PyError.typeError "cannot concatenate str and int objects") := rfl

/-- Claim C6 fails on the code: requesting pending-to-complete raises
TypeError at the debug print, not the InvalidTransition rejection (and the
transition check it never reaches would itself raise NameError in
validTransition). -/
theorem put_invalid_transition_not_invalidTransition :
    Job.put onePendingStore 1 [("state", Value.str "complete")] 12
      = Except.error (PyError.typeError "cannot concatenate str and int objects") := rfl

/-- Claim C7 fails on the code: an update of a running job raises TypeError
at the debug print; no compare-and-set on state and no conflicting-update
error exist anywhere on the path. -/
theorem put_has_no_conflicting_update_error :
    Job.put oneRunningStore 2 [("result", Value.str "ok")] 5
      = Except.error (PyError.typeError "cannot concatenate str and int objects") := rfl

/-- Claim C8 fails on the code: a put against an id absent from the store
raises TypeError at the debug print (and the next line would subscript None),
never a NotFound error. -/
theorem put_absent_id_not_notFound :
    Job.put [] 1 [("state", Value.str "running")] 3
      = Except.error (PyError.typeError "cannot concatenate str and int objects") := rfl

end BidsJobs
